import Mathlib

/-!
Verification development for the TranslationApp repository
(NLLB ONNX graph-family exporter and cache-compatibility verifier).

The Python sources are shallowly embedded:
 - `pyReplace` models Python's `str.replace` (all non-overlapping
   occurrences, left to right);
 - `verify_model` models `verify_onnx_model.py`'s `verify_model`, with the
   filesystem and the ONNX runtime abstracted into an `Env` record
   (`fileExists` for `Path.exists`, `loadOk` for `ort.InferenceSession`,
   returning `none` when construction raises);
 - `export_step_by_step` models the post-export quantization pass of
   `export_nllb_step_by_step.py`, with the filesystem as a map from
   filename to file content (a `Nat` standing for the bytes) and the
   external engines (`main_export`, `quantize_dynamic`) as parameters;
 - `download_xenova_models` models `download_nllb_manual.py`.
-/

namespace TranslationApp

/-! ## Python string primitives -/

/-- Fuel-driven worker for `pyReplace`; the fuel is only there to make
the recursion structural (it is always called with at least the length
of the scanned list, which the recursion never exceeds). -/
def pyReplaceFuel (pat repl : List Char) : Nat → List Char → List Char
  | 0, l => l
  | _, [] => []
  | fuel + 1, c :: rest =>
    if !pat.isEmpty && pat.isPrefixOf (c :: rest) then
      repl ++ pyReplaceFuel pat repl fuel (rest.drop (pat.length - 1))
    else
      c :: pyReplaceFuel pat repl fuel rest

/-- Python `s.replace(pat, repl)`: replace all non-overlapping occurrences
of `pat` in `s` by `repl`, scanning left to right.  (The empty-pattern
corner case of Python is irrelevant here; an empty pattern replaces
nothing in this model.) -/
def pyReplace (pat repl l : List Char) : List Char :=
  pyReplaceFuel pat repl l.length l

/-- String wrapper for `pyReplace`, argument order as in Python:
`pyReplaceStr s pat repl` is `s.replace(pat, repl)`. -/
def pyReplaceStr (s pat repl : String) : String :=
  ⟨pyReplace pat.data repl.data s.data⟩

/-- Substring containment on character lists (Python's `pat in s`). -/
def containsSub (pat : List Char) : List Char → Bool
  | [] => pat.isEmpty
  | c :: rest => pat.isPrefixOf (c :: rest) || containsSub pat rest

/-- Python `pat in s` on strings. -/
def pyIn (pat s : String) : Bool :=
  containsSub pat.data s.data

/-- Python `s.lower()` (ASCII-sufficient model via `Char.toLower`). -/
def strLower (s : String) : String :=
  ⟨s.data.map Char.toLower⟩

/-! ## verify_onnx_model.py -/

/-- The static interface that `ort.InferenceSession` exposes:
declared input and output tensor names (shapes and element types are
printed by the script but never branched on, so they are omitted). -/
structure Session where
  inputs : List String
  outputs : List String
deriving DecidableEq

/-- The verifier's environment: which files exist in the model directory
and what loading each file yields (`none` models `ort.InferenceSession`
raising). -/
structure Env where
  fileExists : String → Bool
  loadOk : String → Option Session

/-- `files_to_check` of `verify_model` (insertion order of the dict). -/
def files_to_check : List (String × String) :=
  [("encoder", "encoder_model_quantized.onnx"),
   ("decoder", "decoder_model_quantized.onnx"),
   ("decoder_with_past", "decoder_with_past_model_quantized.onnx")]

/-- `filename.replace("_quantized", "")` — the uncompressed fallback name. -/
def nonQuantName (fn : String) : String :=
  pyReplaceStr fn "_quantized" ""

/-- Discovery for one role: the quantized filename is tried first, then
the name with `_quantized` stripped; `none` when neither file exists
(lines 38–47 of `verify_onnx_model.py`). -/
def resolvePath (env : Env) (fn : String) : Option String :=
  if env.fileExists fn then some fn
  else if env.fileExists (nonQuantName fn) then some (nonQuantName fn)
  else none

/-- Resolve and load one role; `none` when the file is absent or the
session constructor raises (the `try`/`except` at lines 49–54). -/
def tryLoadRole (env : Env) (fn : String) : Option Session :=
  match resolvePath env fn with
  | none => none
  | some p => env.loadOk p

/-- The `sessions` dict after the discovery loop, in insertion order. -/
def sessionsList (env : Env) : List (String × Session) :=
  files_to_check.filterMap fun rf => (tryLoadRole env rf.2).map fun s => (rf.1, s)

/-- `past_inputs`: inputs of `decoder_with_past` whose lower-cased name
contains `"past"` (line 93). -/
def pastInputsOf (s : Session) : List String :=
  s.inputs.filter fun n => pyIn "past" (strLower n)

/-- `decoder_present`: outputs of the decoder containing `"present"`
(case-sensitive, line 110). -/
def presentOutputsOf (s : Session) : List String :=
  s.outputs.filter fun n => pyIn "present" n

/-- The name rewrite the verifier tests:
`outputName.replace("present.", "past_key_values.")` (line 134). -/
def rewriteName (s : String) : String :=
  pyReplaceStr s "present." "past_key_values."

/-- Observable result of the compatibility block (lines 79–141):
the two filtered name lists, whether cache inputs were detected
(the `if past_inputs:` report at lines 95–103), and the outcome of the
rewrite comparison (`none` when one of the two lists was empty and the
comparison at lines 134–141 therefore never ran). -/
structure CompatInfo where
  pastInputs : List String
  decoderPresent : List String
  cacheDetected : Bool
  rewriteMatches : Option Bool
deriving DecidableEq

/-- Compatibility block computed from the decoder and decoder_with_past
sessions.  The compared representatives are `decoder_present[0]` and
`past_inputs[0]`; the comparison is string equality of the rewritten
output name with that single representative input name. -/
def mkCompat (dec dwp : Session) : CompatInfo :=
  let pastInputs := pastInputsOf dwp
  let decoderPresent := presentOutputsOf dec
  { pastInputs := pastInputs
    decoderPresent := decoderPresent
    cacheDetected := !pastInputs.isEmpty
    rewriteMatches :=
      match decoderPresent, pastInputs with
      | p :: _, q :: _ => some (rewriteName p == q)
      | _, _ => none }

/-- What one run of the script reports: the loaded roles (in discovery
order) and, when `decoder_with_past` was loaded, the compatibility
block. -/
structure Report where
  loadedRoles : List String
  compat : Option CompatInfo
deriving DecidableEq

/-- How the process ends: `exited c` for an explicit `sys.exit(c)`,
`keyError` for the uncaught `sessions["decoder"]` lookup failure at
line 85 (Python terminates with a traceback, status 1), `finished r`
for a normal return (the process then exits with status 0). -/
inductive VResult where
  | exited (code : Nat)
  | keyError
  | finished (r : Report)
deriving DecidableEq

/-- `verify_model`, given that `onnxruntime` imports and a directory
argument was supplied.  Mirrors the control flow of lines 30–159:
discovery loop, `sys.exit(1)` on an empty `sessions` dict, then the
compatibility block guarded by `"decoder_with_past" in sessions`, inside
which `sessions["decoder"]` is read unconditionally (line 85). -/
def verify_model (env : Env) : VResult :=
  let sessions := sessionsList env
  if sessions.isEmpty then .exited 1
  else
    match sessions.lookup "decoder_with_past" with
    | none => .finished { loadedRoles := sessions.map Prod.fst, compat := none }
    | some dwp =>
      match sessions.lookup "decoder" with
      | none => .keyError
      | some dec =>
        .finished { loadedRoles := sessions.map Prod.fst
                    compat := some (mkCompat dec dwp) }

/-- Process exit status of one run (an uncaught exception makes the
interpreter exit with status 1). -/
def exitCodeOf : VResult → Nat
  | .exited c => c
  | .keyError => 1
  | .finished _ => 0

/-- The compatibility block of a run, when one was produced. -/
def compatOf : VResult → Option CompatInfo
  | .finished r => r.compat
  | _ => none

/-! ## export_nllb_step_by_step.py -/

/-- A durable-storage state: filename to file content (a `Nat` stands in
for the bytes). -/
def FSMap : Type := String → Option Nat

/-- `models_to_quantize` (lines 65–69). -/
def models_to_quantize : List String :=
  ["encoder_model.onnx", "decoder_model.onnx", "decoder_with_past_model.onnx"]

/-- `model_name.replace(".onnx", "_quantized.onnx")` (line 77). -/
def quantizedName (s : String) : String :=
  pyReplaceStr s ".onnx" "_quantized.onnx"

/-- One iteration of the quantization loop (lines 71–95): skip when the
input model is absent; otherwise run the external `quantize_dynamic`
(`quant`, a function of the input content) and write its output under the
quantized name, or — when it raises — catch, log and leave the
filesystem as it was. -/
def quantizeStep (quant : Nat → Option Nat) (fs : FSMap) (name : String) : FSMap :=
  match fs name with
  | none => fs
  | some content =>
    match quant content with
    | some q => fun n => if n = quantizedName name then some q else fs n
    | none => fs

/-- The whole quantization pass over the three model files. -/
def quantizePass (quant : Nat → Option Nat) (fs : FSMap) : FSMap :=
  models_to_quantize.foldl (quantizeStep quant) fs

/-- `export_step_by_step`: the external `main_export` (`engine`) runs
first; if it raises the function returns `False`; otherwise the
quantization pass runs and the function returns `True` (quantization
failures are caught inside the loop and never change the return
value). -/
def export_step_by_step (engine : FSMap → Option FSMap)
    (quant : Nat → Option Nat) (fs : FSMap) : FSMap × Bool :=
  match engine fs with
  | none => (fs, false)
  | some fs1 => (quantizePass quant fs1, true)

/-! ## download_nllb_manual.py -/

/-- The two model files downloaded from the Xenova repository
(lines 39–43; `decoder_with_past` is commented out in the source). -/
def xenova_files : List String :=
  ["encoder_model_quantized.onnx", "decoder_model_quantized.onnx"]

/-- The external download capability: filename to fetched content,
`none` when the transfer raises. -/
structure DlEnv where
  fetch : String → Option Nat

/-- One iteration of the download loop (lines 56–69): a destination that
already exists is skipped; otherwise the file is fetched and written, a
failed fetch being caught and logged. -/
def downloadStep (env : DlEnv) (fs : FSMap) (filename : String) : FSMap :=
  if (fs filename).isSome then fs
  else
    match env.fetch filename with
    | some content => fun n => if n = filename then some content else fs n
    | none => fs

/-- `download_xenova_models` given the operator's answer to the
confirmation prompt: when confirmed, the two model files are fetched
with skip-if-exists, then `tokenizer.json` is fetched with no
existence check (lines 71–78). -/
def download_xenova_models (env : DlEnv) (proceed : Bool) (fs : FSMap) : FSMap :=
  if !proceed then fs
  else
    let fs1 := xenova_files.foldl (downloadStep env) fs
    match env.fetch "tokenizer.json" with
    | some c => fun n => if n = "tokenizer.json" then some c else fs1 n
    | none => fs1

/-! ## Spec-side definitions (for refinement comparison only)

These two definitions follow the specification's words, not the source:
they express the `CacheSlotPattern` slot extraction of spec §3, used to
compare what the spec claims the verifier checks against what
`verify_model` actually computes. -/

/-- Split a character list at every dot (spec-side helper). -/
def splitDot : List Char → List (List Char)
  | [] => [[]]
  | c :: rest =>
    match splitDot rest with
    | [] => [[c]]
    | h :: t => if c = '.' then [] :: h :: t else (c :: h) :: t

/-- Spec-side: the `(layer_index, component, branch)` slots declared
under a given role-prefix token, read off a list of tensor names of the
four-token form `rolePre.layer.component.branch` (spec §3,
`CacheSlotPattern`). -/
def specCacheSlots (rolePre : String) (names : List String) : List (List Char × List Char × List Char) :=
  names.filterMap fun n =>
    match splitDot n.data with
    | [r, layer, compo, branch] =>
      if r = rolePre.data then some (layer, compo, branch) else none
    | _ => none

/-! ## Concrete environments used by witnesses and counterexamples -/

/-- Build an `Env` from a table: a listed name with `some s` is a file
that exists and loads as `s`; a listed name with `none` is a file that
exists but whose load raises; an unlisted name does not exist. -/
def envOf (tbl : List (String × Option Session)) : Env :=
  { fileExists := fun n => (tbl.lookup n).isSome
    loadOk := fun n => (tbl.lookup n).bind id }

/-- Directory holding only encoder and first-step decoder (both load):
the required cache decoder is absent. -/
def envNoCacheGraph : Env :=
  envOf [("encoder_model_quantized.onnx", some ⟨["input_ids"], ["last_hidden_state"]⟩),
         ("decoder_model_quantized.onnx", some ⟨["input_ids"], ["logits"]⟩)]

/-- Directory where the rewritten representative output is a member of
the cache graph's input set but differs from the first cache input. -/
def envMemberNotFirst : Env :=
  envOf [("decoder_model_quantized.onnx",
          some ⟨["input_ids"], ["present.0.decoder.key"]⟩),
         ("decoder_with_past_model_quantized.onnx",
          some ⟨["past_key_values.0.decoder.value", "past_key_values.0.decoder.key"], []⟩)]

/-- Directory where the first-step graph declares cache outputs for
layers 0 and 1 but the cache graph declares inputs for layer 0 only. -/
def envLayerDropped : Env :=
  envOf [("decoder_model_quantized.onnx",
          some ⟨["input_ids"], ["present.0.decoder.key", "present.1.decoder.key"]⟩),
         ("decoder_with_past_model_quantized.onnx",
          some ⟨["past_key_values.0.decoder.key"], []⟩)]

/-- Directory where the cache decoder loads but the first-step decoder
is entirely absent (neither filename exists). -/
def envDecoderAbsent : Env :=
  envOf [("encoder_model_quantized.onnx", some ⟨["input_ids"], ["last_hidden_state"]⟩),
         ("decoder_with_past_model_quantized.onnx",
          some ⟨["past_key_values.0.decoder.key"], []⟩)]

/-- Directory where the encoder resolves through the uncompressed
fallback, the cache decoder loads, and the first-step decoder file
exists but is corrupt (its load raises). -/
def envDecoderCorrupt : Env :=
  envOf [("encoder_model.onnx", some ⟨["input_ids"], ["last_hidden_state"]⟩),
         ("decoder_model_quantized.onnx", none),
         ("decoder_with_past_model_quantized.onnx",
          some ⟨["past_key_values.0.decoder.key"], []⟩)]

/-- Directory whose cache decoder has cache inputs but whose first-step
decoder declares no `present.*` output at all. -/
def envNoPresentOutputs : Env :=
  envOf [("decoder_model_quantized.onnx", some ⟨["input_ids"], ["logits"]⟩),
         ("decoder_with_past_model_quantized.onnx",
          some ⟨["past_key_values.0.decoder.key"], []⟩)]

/-- Directory where the encoder file is corrupt (load raises) while both
decoder graphs load. -/
def envEncoderCorrupt : Env :=
  envOf [("encoder_model_quantized.onnx", none),
         ("decoder_model_quantized.onnx",
          some ⟨["input_ids"], ["present.0.decoder.key"]⟩),
         ("decoder_with_past_model_quantized.onnx",
          some ⟨["past_key_values.0.decoder.key"], []⟩)]

/-- Directory holding only the cache decoder: the decoder role resolves
to neither filename. -/
def envOnlyCacheGraph : Env :=
  envOf [("decoder_with_past_model_quantized.onnx",
          some ⟨["past_key_values.1.encoder.key"], []⟩)]

/-- A directory state where the final filename
`decoder_model_quantized.onnx` is already present (content 7). -/
def fsPre : FSMap :=
  fun n => if n = "decoder_model_quantized.onnx" then some 7 else none

/-- An export engine that writes the uncompressed decoder graph
(content 5) and leaves every other file as it was. -/
def engineDemo : FSMap → Option FSMap :=
  fun fs => some fun n => if n = "decoder_model.onnx" then some 5 else fs n

/-- A compression engine that succeeds everywhere, producing content
`c + 1` from content `c`. -/
def quantDemo : Nat → Option Nat :=
  fun c => some (c + 1)

/-- A single-file directory state used by download witnesses. -/
def fsOneEncoder : FSMap :=
  fun n => if n = "encoder_model_quantized.onnx" then some 3 else none

/-- A download capability that serves every file with content 42. -/
def dlEnvDemo : DlEnv := ⟨fun _ => some 42⟩

/-- An export engine writing the uncompressed encoder graph (content 11). -/
def engineNine : FSMap → Option FSMap :=
  fun fs => some fun n => if n = "encoder_model.onnx" then some 11 else fs n

/-- A compression engine succeeding exactly on content 11 (producing 12). -/
def quantNine : Nat → Option Nat :=
  fun c => if c = 11 then some 12 else none

/-- The empty directory state. -/
def fsNine : FSMap := fun _ => none

/-! ## Generic string lemmas -/

theorem strData_append (s t : String) : (s ++ t).data = s.data ++ t.data := by
  cases s
  cases t
  rfl

theorem isPrefixOf_append_self (l : List Char) (t : List Char) :
    l.isPrefixOf (l ++ t) = true := by
  induction l with
  | nil => simp
  | cons c cs ih => simp [List.isPrefixOf, ih]

theorem pyReplaceFuel_fuel_irrel (pat repl : List Char) :
    ∀ (f₁ f₂ : Nat) (l : List Char), l.length ≤ f₁ → l.length ≤ f₂ →
      pyReplaceFuel pat repl f₁ l = pyReplaceFuel pat repl f₂ l := by
  intro f₁
  induction f₁ with
  | zero =>
    intro f₂ l h₁ h₂
    have hl : l = [] := List.eq_nil_of_length_eq_zero (Nat.le_zero.mp h₁)
    subst hl
    cases f₂ <;> rfl
  | succ g ih =>
    intro f₂ l h₁ h₂
    cases l with
    | nil => cases f₂ <;> rfl
    | cons c rest =>
      cases f₂ with
      | zero => simp only [List.length_cons] at h₂; omega
      | succ g₂ =>
        simp only [pyReplaceFuel]
        by_cases hcond : (!pat.isEmpty && pat.isPrefixOf (c :: rest)) = true
        · rw [hcond]
          simp only [if_true]
          congr 1
          apply ih
          · have : (rest.drop (pat.length - 1)).length ≤ rest.length :=
              by simp [List.length_drop]
            simp only [List.length_cons] at h₁
            omega
          · have : (rest.drop (pat.length - 1)).length ≤ rest.length :=
              by simp [List.length_drop]
            simp only [List.length_cons] at h₂
            omega
        · rw [Bool.not_eq_true] at hcond
          rw [hcond]
          simp only [Bool.false_eq_true, if_false]
          congr 1
          apply ih
          · simp only [List.length_cons] at h₁; omega
          · simp only [List.length_cons] at h₂; omega

theorem pyReplace_head_match (pat repl t : List Char) (h : pat ≠ []) :
    pyReplace pat repl (pat ++ t) = repl ++ pyReplace pat repl t := by
  cases pat with
  | nil => exact absurd rfl h
  | cons p ps =>
    show pyReplaceFuel (p :: ps) repl ((p :: ps ++ t).length) (p :: (ps ++ t)) = _
    have hlen : (p :: ps ++ t).length = (ps ++ t).length + 1 := by simp
    rw [hlen]
    simp only [pyReplaceFuel]
    have hpre : (p :: ps).isPrefixOf (p :: (ps ++ t)) = true :=
      isPrefixOf_append_self (p :: ps) t
    rw [hpre]
    simp only [List.isEmpty_cons, Bool.not_false, Bool.true_and, if_true]
    congr 1
    have hdrop : (ps ++ t).drop ((p :: ps).length - 1) = t := by
      simp [List.drop_left]
    rw [hdrop]
    exact pyReplaceFuel_fuel_irrel _ _ _ _ _ (by simp) (Nat.le_refl _)

theorem pyReplace_no_first (pat repl t : List Char) (p : Char)
    (hpat : pat.head? = some p) (h : p ∉ t) :
    pyReplace pat repl t = t := by
  cases pat with
  | nil => simp at hpat
  | cons p₀ ps =>
    have hp : p₀ = p := by simpa using hpat
    subst hp
    show pyReplaceFuel (p₀ :: ps) repl t.length t = t
    suffices hgen : ∀ (f : Nat) (l : List Char), l.length ≤ f → p₀ ∉ l →
        pyReplaceFuel (p₀ :: ps) repl f l = l from
      hgen t.length t (Nat.le_refl _) h
    intro f
    induction f with
    | zero => intro l _ _; cases l <;> rfl
    | succ g ih =>
      intro l hlen hmem
      cases l with
      | nil => rfl
      | cons c rest =>
        have hne : p₀ ≠ c := fun he => hmem (he ▸ List.mem_cons_self c rest)
        have hpre : (p₀ :: ps).isPrefixOf (c :: rest) = false := by
          simp [List.isPrefixOf, hne]
        simp only [pyReplaceFuel, hpre, Bool.and_false, Bool.false_eq_true,
          if_false, List.cons.injEq, true_and]
        apply ih
        · simp only [List.length_cons] at hlen; omega
        · exact fun hc => hmem (List.mem_cons_of_mem _ hc)

/-! ## Decimal digit lemmas (for names containing a layer index) -/

theorem digitChar_isDigit_of_lt_ten :
    ∀ m : Nat, m < 10 → (Nat.digitChar m).isDigit = true := by decide

theorem toDigitsCore_isDigit :
    ∀ (fuel n : Nat) (acc : List Char), (∀ c ∈ acc, c.isDigit = true) →
      ∀ c ∈ Nat.toDigitsCore 10 fuel n acc, c.isDigit = true := by
  intro fuel
  induction fuel with
  | zero => intro n acc hacc c hc; exact hacc c hc
  | succ g ih =>
    intro n acc hacc c hc
    have hdig : (Nat.digitChar (n % 10)).isDigit = true :=
      digitChar_isDigit_of_lt_ten _ (Nat.mod_lt _ (by omega))
    simp only [Nat.toDigitsCore] at hc
    by_cases hz : n / 10 = 0
    · rw [if_pos hz] at hc
      rcases List.mem_cons.mp hc with h | h
      · exact h ▸ hdig
      · exact hacc c h
    · rw [if_neg hz] at hc
      refine ih (n / 10) (Nat.digitChar (n % 10) :: acc) ?_ c hc
      intro d hd
      rcases List.mem_cons.mp hd with h | h
      · exact h ▸ hdig
      · exact hacc d h

theorem repr_data_isDigit (n : Nat) : ∀ c ∈ (Nat.repr n).data, c.isDigit = true := by
  intro c hc
  have : (Nat.repr n).data = Nat.toDigits 10 n := rfl
  rw [this] at hc
  exact toDigitsCore_isDigit (n + 1) n [] (by intro d hd; simp at hd) c hc

/-! ## Claim C1 -/

/-- C1: the name rewrite used by the verifier
(`outputName.replace("present.", "past_key_values.")`) satisfies, for
every layer index `i`, component in `{decoder, encoder}` and branch in
`{key, value}`,
`rewrite("present.i.component.branch") = "past_key_values.i.component.branch"`
exactly: the leading token up to and including the first separator is
replaced and all remaining tokens are copied verbatim. -/
theorem rewrite_rule_on_cache_slot_names (i : Nat) (comp br : String)
    (hc : comp = "decoder" ∨ comp = "encoder") (hb : br = "key" ∨ br = "value") :
    rewriteName ("present." ++ Nat.repr i ++ "." ++ comp ++ "." ++ br)
      = "past_key_values." ++ Nat.repr i ++ "." ++ comp ++ "." ++ br := by
  apply String.ext
  have hdata : ("present." ++ Nat.repr i ++ "." ++ comp ++ "." ++ br).data
      = "present.".data ++ ((Nat.repr i).data ++ ".".data ++ comp.data ++ ".".data ++ br.data) := by
    simp [strData_append, List.append_assoc]
  have hdata2 : ("past_key_values." ++ Nat.repr i ++ "." ++ comp ++ "." ++ br).data
      = "past_key_values.".data ++ ((Nat.repr i).data ++ ".".data ++ comp.data ++ ".".data ++ br.data) := by
    simp [strData_append, List.append_assoc]
  show pyReplace "present.".data "past_key_values.".data
      ("present." ++ Nat.repr i ++ "." ++ comp ++ "." ++ br).data = _
  rw [hdata, hdata2]
  rw [pyReplace_head_match _ _ _ (by decide)]
  have hnop : Char.ofNat 112 ∉
      (Nat.repr i).data ++ ".".data ++ comp.data ++ ".".data ++ br.data := by
    intro hmem
    simp only [List.mem_append] at hmem
    rcases hmem with ((((hmem | hmem) | hmem) | hmem) | hmem)
    · have := repr_data_isDigit i _ hmem
      simp [Char.isDigit, Char.ofNat] at this
    · simp at hmem
    · rcases hc with h | h <;> subst h <;> revert hmem <;> decide
    · simp at hmem
    · rcases hb with h | h <;> subst h <;> revert hmem <;> decide
  rw [pyReplace_no_first _ _ _ (Char.ofNat 112) (by decide) hnop]

/-- Spot check for `rewrite_rule_on_cache_slot_names` at layer 3,
component `decoder`, branch `key`. -/
theorem rewrite_rule_on_cache_slot_names_spot :
    rewriteName ("present." ++ Nat.repr 3 ++ "." ++ "decoder" ++ "." ++ "key")
      = "past_key_values." ++ Nat.repr 3 ++ "." ++ "decoder" ++ "." ++ "key" :=
  rewrite_rule_on_cache_slot_names 3 "decoder" "key" (Or.inl rfl) (Or.inl rfl)

/-! ## Structural lemmas about the verifier -/

theorem lookup_sessions_encoder (env : Env) :
    (sessionsList env).lookup "encoder"
      = tryLoadRole env "encoder_model_quantized.onnx" := by
  unfold sessionsList files_to_check
  cases h1 : tryLoadRole env "encoder_model_quantized.onnx" <;>
    cases h2 : tryLoadRole env "decoder_model_quantized.onnx" <;>
      cases h3 : tryLoadRole env "decoder_with_past_model_quantized.onnx" <;>
        simp [List.filterMap, h1, h2, h3, List.lookup]

theorem lookup_sessions_decoder (env : Env) :
    (sessionsList env).lookup "decoder"
      = tryLoadRole env "decoder_model_quantized.onnx" := by
  unfold sessionsList files_to_check
  cases h1 : tryLoadRole env "encoder_model_quantized.onnx" <;>
    cases h2 : tryLoadRole env "decoder_model_quantized.onnx" <;>
      cases h3 : tryLoadRole env "decoder_with_past_model_quantized.onnx" <;>
        simp [List.filterMap, h1, h2, h3, List.lookup]

theorem lookup_sessions_dwp (env : Env) :
    (sessionsList env).lookup "decoder_with_past"
      = tryLoadRole env "decoder_with_past_model_quantized.onnx" := by
  unfold sessionsList files_to_check
  cases h1 : tryLoadRole env "encoder_model_quantized.onnx" <;>
    cases h2 : tryLoadRole env "decoder_model_quantized.onnx" <;>
      cases h3 : tryLoadRole env "decoder_with_past_model_quantized.onnx" <;>
        simp [List.filterMap, h1, h2, h3, List.lookup]

theorem verify_model_of_lookups (env : Env) (dec dwp : Session)
    (hd : (sessionsList env).lookup "decoder" = some dec)
    (hw : (sessionsList env).lookup "decoder_with_past" = some dwp) :
    verify_model env = .finished { loadedRoles := (sessionsList env).map Prod.fst
                                   compat := some (mkCompat dec dwp) } := by
  unfold verify_model
  have hne : (sessionsList env).isEmpty = false := by
    cases hl : sessionsList env with
    | nil => rw [hl] at hw; simp at hw
    | cons a l => simp
  simp [hne, hd, hw]

theorem verify_model_keyError_iff (env : Env) :
    verify_model env = .keyError ↔
      (((sessionsList env).lookup "decoder_with_past").isSome = true ∧
       (sessionsList env).lookup "decoder" = none) := by
  unfold verify_model
  cases h0 : (sessionsList env).isEmpty
  · cases h1 : (sessionsList env).lookup "decoder_with_past" <;>
      cases h2 : (sessionsList env).lookup "decoder" <;>
        simp [h0, h1, h2]
  · have : sessionsList env = [] := List.isEmpty_iff.mp h0
    simp [h0, this]

theorem tryLoadRole_compressed (env : Env) (fn : String)
    (h : env.fileExists fn = true) :
    tryLoadRole env fn = env.loadOk fn := by
  unfold tryLoadRole resolvePath
  simp [h]

theorem tryLoadRole_fallback (env : Env) (fn : String)
    (h : env.fileExists fn = false) (h2 : env.fileExists (nonQuantName fn) = true) :
    tryLoadRole env fn = env.loadOk (nonQuantName fn) := by
  unfold tryLoadRole resolvePath
  simp [h, h2]

theorem tryLoadRole_none (env : Env) (fn : String)
    (h : env.fileExists fn = false) (h2 : env.fileExists (nonQuantName fn) = false) :
    tryLoadRole env fn = none := by
  unfold tryLoadRole resolvePath
  simp [h, h2]

/-! ## Claim C2 -/

/-- C2, counterexample to the claim as stated: with the encoder and
first-step decoder loadable but no cache-decoder file at all, the
required `decoder_with_past` artifact is missing — the end state is not
fully usable — yet `verify_model` returns normally and the process exits
with status 0, not a non-zero status. -/
theorem exit_zero_despite_missing_cache_graph :
    verify_model envNoCacheGraph = .finished ⟨["encoder", "decoder"], none⟩
    ∧ exitCodeOf (verify_model envNoCacheGraph) = 0
    ∧ (sessionsList envNoCacheGraph).lookup "decoder_with_past" = none
    ∧ envNoCacheGraph.fileExists "decoder_with_past_model_quantized.onnx" = false
    ∧ envNoCacheGraph.fileExists "decoder_with_past_model.onnx" = false := by
  decide

/-- C2 as amended: the process exit status of a verification run is 1
exactly when no artifact loaded at all, or when `decoder_with_past`
loaded while the `decoder` role did not (the uncaught lookup error); in
every other situation — including a missing required artifact, absent
cache tensors, or a rewrite mismatch — the exit status is 0. -/
theorem verify_exit_code_semantics (env : Env) :
    exitCodeOf (verify_model env) =
      if (sessionsList env).isEmpty then 1
      else if ((sessionsList env).lookup "decoder_with_past").isSome
              && ((sessionsList env).lookup "decoder").isNone then 1 else 0 := by
  unfold verify_model
  cases h0 : (sessionsList env).isEmpty
  · cases h1 : (sessionsList env).lookup "decoder_with_past" <;>
      cases h2 : (sessionsList env).lookup "decoder" <;>
        simp [h0, h1, h2, exitCodeOf]
  · simp [h0, exitCodeOf]

/-! ## Claim C3 -/

/-- C3, counterexample to the claim as stated: the rewritten
representative output name `past_key_values.0.decoder.key` is a member
of the cache graph's declared input-name set, yet the verifier records a
mismatch (`rewriteMatches = some false`), because it compares against
the single representative input `past_inputs[0]` rather than testing
membership in the full input-name set. -/
theorem rewrite_membership_not_tested :
    verify_model envMemberNotFirst = .finished ⟨["decoder", "decoder_with_past"],
      some ⟨["past_key_values.0.decoder.value", "past_key_values.0.decoder.key"],
            ["present.0.decoder.key"], true, some false⟩⟩
    ∧ rewriteName "present.0.decoder.key"
        ∈ ["past_key_values.0.decoder.value", "past_key_values.0.decoder.key"] := by
  decide

/-- C3 as amended: when both selected subsets are non-empty, the
verifier applies the rewrite rule to the representative (first) present
output and compares the result, by exact string equality with no
case-folding or whitespace tolerance, against the representative (first)
cache input name — not against the full declared input-name set. -/
theorem rewrite_check_uses_first_cache_input (dec dwp : Session)
    (p q : String) (ps qs : List String)
    (hp : presentOutputsOf dec = p :: ps)
    (hq : pastInputsOf dwp = q :: qs) :
    (mkCompat dec dwp).rewriteMatches = some (rewriteName p == q) := by
  simp [mkCompat, hp, hq]

/-- Spot check for `rewrite_check_uses_first_cache_input`. -/
theorem rewrite_check_uses_first_cache_input_spot :
    (mkCompat ⟨["input_ids"], ["present.2.encoder.value"]⟩
              ⟨["past_key_values.2.encoder.value"], []⟩).rewriteMatches
      = some (rewriteName "present.2.encoder.value" == "past_key_values.2.encoder.value") :=
  rewrite_check_uses_first_cache_input _ _ _ _ [] [] (by decide) (by decide)

/-! ## Claim C4 -/

/-- C4, counterexample to the claim as stated: the first-step graph
declares cache outputs for layers 0 and 1 while the cache graph declares
inputs for layer 0 only — the `(layer, branch)` slot sets differ, with
layer 1 missing on the input side — yet the verifier reports a match
(`rewriteMatches = some true`), exits with status 0, and produces no
discrepancy naming layer 1: no set or cardinality comparison exists. -/
theorem missing_layer_not_reported :
    verify_model envLayerDropped = .finished ⟨["decoder", "decoder_with_past"],
      some ⟨["past_key_values.0.decoder.key"],
            ["present.0.decoder.key", "present.1.decoder.key"], true, some true⟩⟩
    ∧ exitCodeOf (verify_model envLayerDropped) = 0
    ∧ ("1".data, "decoder".data, "key".data)
        ∈ specCacheSlots "present" ["present.0.decoder.key", "present.1.decoder.key"]
    ∧ ("1".data, "decoder".data, "key".data)
        ∉ specCacheSlots "past_key_values" ["past_key_values.0.decoder.key"] := by
  decide

/-- C4 as amended: the verifier performs no `(layer, branch)` set or
cardinality comparison between `present.*` outputs and
`past_key_values.*` inputs.  Whenever the single representative
comparison succeeds, the run reports the compatibility block with
`rewriteMatches = some true` and exits 0, even when the slot sets
extracted from the two graphs (as the spec describes them) differ. -/
theorem no_layer_set_comparison (env : Env) (dec dwp : Session)
    (hd : (sessionsList env).lookup "decoder" = some dec)
    (hw : (sessionsList env).lookup "decoder_with_past" = some dwp)
    (_hneq : specCacheSlots "present" dec.outputs
              ≠ specCacheSlots "past_key_values" dwp.inputs)
    (_hmatch : (mkCompat dec dwp).rewriteMatches = some true) :
    exitCodeOf (verify_model env) = 0
    ∧ compatOf (verify_model env) = some (mkCompat dec dwp) := by
  rw [verify_model_of_lookups env dec dwp hd hw]
  exact ⟨rfl, rfl⟩

/-- Spot check for `no_layer_set_comparison` on a family whose layer-1
slot is declared by the first-step graph only. -/
theorem no_layer_set_comparison_spot :
    exitCodeOf (verify_model envLayerDropped) = 0
    ∧ compatOf (verify_model envLayerDropped)
        = some (mkCompat ⟨["input_ids"], ["present.0.decoder.key", "present.1.decoder.key"]⟩
                         ⟨["past_key_values.0.decoder.key"], []⟩) :=
  no_layer_set_comparison envLayerDropped
    ⟨["input_ids"], ["present.0.decoder.key", "present.1.decoder.key"]⟩
    ⟨["past_key_values.0.decoder.key"], []⟩
    (by decide) (by decide) (by decide) (by decide)

/-! ## Claim C5 -/

/-- C5, counterexample to the claim as stated: with the encoder loadable
and the cache decoder loadable but the first-step decoder absent, the
run aborts with the uncaught `sessions["decoder"]` lookup error before
reporting anything about the two loaded artifacts — so resilience does
not hold for arbitrary combinations of present, absent and unloadable
roles. -/
theorem verify_aborts_without_decoder :
    verify_model envDecoderAbsent = .keyError
    ∧ (sessionsList envDecoderAbsent).map Prod.fst = ["encoder", "decoder_with_past"]
    ∧ exitCodeOf (verify_model envDecoderAbsent) = 1 := by
  decide

/-- C5 as amended: whenever the `decoder` and `decoder_with_past` roles
both load, the run finishes normally and reports the full compatibility
result computed from those two sessions alone — the encoder may be
present, absent or unloadable without affecting it.  Resilience fails
only when `decoder_with_past` loads and `decoder` does not, in which
case the run aborts with an uncaught lookup error. -/
theorem verify_best_effort_when_decoders_load (env : Env) (dec dwp : Session)
    (hd : (sessionsList env).lookup "decoder" = some dec)
    (hw : (sessionsList env).lookup "decoder_with_past" = some dwp) :
    verify_model env = .finished { loadedRoles := (sessionsList env).map Prod.fst
                                   compat := some (mkCompat dec dwp) }
    ∧ exitCodeOf (verify_model env) = 0 := by
  have h := verify_model_of_lookups env dec dwp hd hw
  exact ⟨h, by rw [h]; rfl⟩

/-- Spot check for `verify_best_effort_when_decoders_load` with a
corrupt (unloadable) encoder artifact. -/
theorem verify_best_effort_when_decoders_load_spot :
    verify_model envEncoderCorrupt
      = .finished { loadedRoles := (sessionsList envEncoderCorrupt).map Prod.fst
                    compat := some (mkCompat
                      ⟨["input_ids"], ["present.0.decoder.key"]⟩
                      ⟨["past_key_values.0.decoder.key"], []⟩) }
    ∧ exitCodeOf (verify_model envEncoderCorrupt) = 0 :=
  verify_best_effort_when_decoders_load envEncoderCorrupt
    ⟨["input_ids"], ["present.0.decoder.key"]⟩
    ⟨["past_key_values.0.decoder.key"], []⟩
    (by decide) (by decide)

/-! ## Claim C7 -/

/-- C7, counterexample to the claim as stated: the `decoder` role
resolves to neither the compressed nor the uncompressed filename; it is
indeed excluded from the sessions, but because `decoder_with_past`
loaded, an uncaught lookup exception escapes `verify_model` — the
claim's "no exception escapes verify" is false. -/
theorem missing_decoder_role_raises :
    envOnlyCacheGraph.fileExists "decoder_model_quantized.onnx" = false
    ∧ envOnlyCacheGraph.fileExists "decoder_model.onnx" = false
    ∧ verify_model envOnlyCacheGraph = .keyError := by
  decide

/-- C7 as amended: for every role, discovery tries the compressed
filename first and falls back to the name with `_quantized` stripped —
if only the uncompressed file exists the role resolves from it, and if
neither exists the role is excluded from the sessions; however an
uncaught exception does escape `verify_model` exactly when
`decoder_with_past` loaded while the `decoder` role did not. -/
theorem discovery_fallback_resolution (env : Env) (role fn : String)
    (hmem : (role, fn) ∈ files_to_check) :
    ((sessionsList env).lookup role = tryLoadRole env fn)
    ∧ (env.fileExists fn = false → env.fileExists (nonQuantName fn) = true →
        (sessionsList env).lookup role = env.loadOk (nonQuantName fn))
    ∧ (env.fileExists fn = false → env.fileExists (nonQuantName fn) = false →
        (sessionsList env).lookup role = none)
    ∧ (verify_model env = .keyError ↔
        (((sessionsList env).lookup "decoder_with_past").isSome = true ∧
         (sessionsList env).lookup "decoder" = none)) := by
  have hlook : (sessionsList env).lookup role = tryLoadRole env fn := by
    simp only [files_to_check, List.mem_cons, List.not_mem_nil, or_false,
      Prod.mk.injEq] at hmem
    rcases hmem with ⟨h1, h2⟩ | ⟨h1, h2⟩ | ⟨h1, h2⟩ <;> subst h1 <;> subst h2
    · exact lookup_sessions_encoder env
    · exact lookup_sessions_decoder env
    · exact lookup_sessions_dwp env
  refine ⟨hlook, ?_, ?_, verify_model_keyError_iff env⟩
  · intro h1 h2
    rw [hlook, tryLoadRole_fallback env fn h1 h2]
  · intro h1 h2
    rw [hlook, tryLoadRole_none env fn h1 h2]

/-- Spot check for `discovery_fallback_resolution`: the encoder role of
a directory where only the uncompressed encoder file exists. -/
theorem discovery_fallback_resolution_spot :
    ((sessionsList envDecoderCorrupt).lookup "encoder"
      = tryLoadRole envDecoderCorrupt "encoder_model_quantized.onnx")
    ∧ (envDecoderCorrupt.fileExists "encoder_model_quantized.onnx" = false →
        envDecoderCorrupt.fileExists (nonQuantName "encoder_model_quantized.onnx") = true →
        (sessionsList envDecoderCorrupt).lookup "encoder"
          = envDecoderCorrupt.loadOk (nonQuantName "encoder_model_quantized.onnx"))
    ∧ (envDecoderCorrupt.fileExists "encoder_model_quantized.onnx" = false →
        envDecoderCorrupt.fileExists (nonQuantName "encoder_model_quantized.onnx") = false →
        (sessionsList envDecoderCorrupt).lookup "encoder" = none)
    ∧ (verify_model envDecoderCorrupt = .keyError ↔
        (((sessionsList envDecoderCorrupt).lookup "decoder_with_past").isSome = true ∧
         (sessionsList envDecoderCorrupt).lookup "decoder" = none)) :=
  discovery_fallback_resolution envDecoderCorrupt "encoder"
    "encoder_model_quantized.onnx" (by decide)

/-! ## Claim C8 -/

/-- C8, counterexample to the claim as stated: the cache graph has a
`past_key_values.*` input but the first-step graph declares no
`present.*` output, so one of the two selected subsets is empty; the
mapping check is indeed skipped (`rewriteMatches = none`), but the run
records the cache inputs as detected (`cacheDetected = true`), not
`false` as the claim requires. -/
theorem cache_detected_true_with_no_present_outputs :
    verify_model envNoPresentOutputs = .finished ⟨["decoder", "decoder_with_past"],
      some ⟨["past_key_values.0.decoder.key"], [], true, none⟩⟩ := by
  decide

/-- C8 as amended: cache-input detection is recorded as `false` exactly
when the selected `past_key_values` input subset is empty, and the
rewrite mapping check is skipped exactly when either selected subset is
empty; an empty `present.*` subset alone leaves the detection flag
`true`. -/
theorem cache_detection_and_mapping_check_conditions (dec dwp : Session) :
    ((mkCompat dec dwp).cacheDetected = false ↔ (mkCompat dec dwp).pastInputs = [])
    ∧ ((mkCompat dec dwp).rewriteMatches = none ↔
        ((mkCompat dec dwp).decoderPresent = [] ∨ (mkCompat dec dwp).pastInputs = [])) := by
  cases hp : pastInputsOf dwp <;> cases hd : presentOutputsOf dec <;>
    simp [mkCompat, hp, hd]

/-! ## Claim C10 -/

/-- C10: a `decoder_with_past` input name is classified as a cache input
iff its lower-cased form contains the substring `"past"`: any letter
case and any position qualifies (`Past_state` counts, even without the
`past_key_values.` role-prefix), and a name lacking the substring is
never counted (e.g. `present.0.decoder.key`). -/
theorem cache_input_classification :
    (∀ (s : Session) (n : String),
        n ∈ pastInputsOf s ↔ (n ∈ s.inputs ∧ pyIn "past" (strLower n) = true))
    ∧ pastInputsOf ⟨["Past_state", "input_ids"], []⟩ = ["Past_state"]
    ∧ pastInputsOf ⟨["present.0.decoder.key"], []⟩ = [] := by
  refine ⟨fun s n => ?_, by decide, by decide⟩
  simp [pastInputsOf, List.mem_filter]

/-! ## Structural lemmas about the quantization pass -/

theorem quantizeStep_apply_other (quant : Nat → Option Nat) (fs : FSMap)
    (name n : String) (h : n ≠ quantizedName name) :
    quantizeStep quant fs name n = fs n := by
  unfold quantizeStep
  cases hf : fs name with
  | none => rfl
  | some c =>
    cases hq : quant c with
    | none => simp [hq]
    | some q => simp [hq, h]

theorem quantizeStep_write (quant : Nat → Option Nat) (fs : FSMap)
    (name : String) (c q : Nat) (hc : fs name = some c) (hq : quant c = some q) :
    quantizeStep quant fs name (quantizedName name) = some q := by
  unfold quantizeStep
  rw [hc]
  simp [hq]

theorem quantizeStep_skip (quant : Nat → Option Nat) (fs : FSMap)
    (name : String) (c : Nat) (hc : fs name = some c) (hq : quant c = none) :
    quantizeStep quant fs name = fs := by
  unfold quantizeStep
  rw [hc]
  simp [hq]

theorem quantizePass_eq (quant : Nat → Option Nat) (fs : FSMap) :
    quantizePass quant fs =
      quantizeStep quant (quantizeStep quant (quantizeStep quant fs
        "encoder_model.onnx") "decoder_model.onnx") "decoder_with_past_model.onnx" := rfl

/-! ## Claim C9 -/

/-- C9: with compression enabled, the quantization pass of
`export_step_by_step` is per-artifact and failure-tolerant: the overall
export still reports success whatever the compression engine does, the
uncompressed model files are never touched by the pass, an artifact
whose compression raises is skipped leaving the directory unchanged at
its quantized name, and an artifact whose compression succeeds gets its
quantized output written — independently of failures on the others. -/
theorem quantization_failures_are_per_artifact
    (engine : FSMap → Option FSMap) (quant : Nat → Option Nat) (fs fs1 : FSMap)
    (h : engine fs = some fs1) :
    (export_step_by_step engine quant fs).2 = true
    ∧ (export_step_by_step engine quant fs).1 = quantizePass quant fs1
    ∧ (∀ n ∈ models_to_quantize, quantizePass quant fs1 n = fs1 n)
    ∧ (∀ n ∈ models_to_quantize, ∀ c, fs1 n = some c → quant c = none →
        quantizePass quant fs1 (quantizedName n) = fs1 (quantizedName n))
    ∧ (∀ n ∈ models_to_quantize, ∀ c q, fs1 n = some c → quant c = some q →
        quantizePass quant fs1 (quantizedName n) = some q) := by
  have hd : (quantizeStep quant fs1 "encoder_model.onnx") "decoder_model.onnx"
      = fs1 "decoder_model.onnx" := quantizeStep_apply_other _ _ _ _ (by decide)
  have hw : (quantizeStep quant (quantizeStep quant fs1 "encoder_model.onnx")
      "decoder_model.onnx") "decoder_with_past_model.onnx"
      = fs1 "decoder_with_past_model.onnx" :=
    (quantizeStep_apply_other _ _ _ _ (by decide)).trans
      (quantizeStep_apply_other _ _ _ _ (by decide))
  refine ⟨?_, ?_, ?_, ?_, ?_⟩
  · unfold export_step_by_step
    rw [h]
  · unfold export_step_by_step
    rw [h]
  · intro n hn
    simp only [models_to_quantize, List.mem_cons, List.not_mem_nil, or_false] at hn
    rcases hn with h | h | h <;> subst h <;>
      rw [quantizePass_eq, quantizeStep_apply_other _ _ _ _ (by decide),
        quantizeStep_apply_other _ _ _ _ (by decide),
        quantizeStep_apply_other _ _ _ _ (by decide)]
  · intro n hn c hc hq
    simp only [models_to_quantize, List.mem_cons, List.not_mem_nil, or_false] at hn
    rcases hn with h | h | h <;> subst h
    · rw [quantizePass_eq, quantizeStep_apply_other _ _ _ _ (by decide),
        quantizeStep_apply_other _ _ _ _ (by decide),
        quantizeStep_skip _ _ _ _ hc hq]
    · rw [quantizePass_eq, quantizeStep_apply_other _ _ _ _ (by decide),
        quantizeStep_skip _ _ _ _ (hd.trans hc) hq,
        quantizeStep_apply_other _ _ _ _ (by decide)]
    · rw [quantizePass_eq, quantizeStep_skip _ _ _ _ (hw.trans hc) hq,
        quantizeStep_apply_other _ _ _ _ (by decide),
        quantizeStep_apply_other _ _ _ _ (by decide)]
  · intro n hn c q hc hq
    simp only [models_to_quantize, List.mem_cons, List.not_mem_nil, or_false] at hn
    rcases hn with h | h | h <;> subst h
    · rw [quantizePass_eq, quantizeStep_apply_other _ _ _ _ (by decide),
        quantizeStep_apply_other _ _ _ _ (by decide)]
      exact quantizeStep_write _ _ _ _ _ hc hq
    · rw [quantizePass_eq, quantizeStep_apply_other _ _ _ _ (by decide)]
      exact quantizeStep_write _ _ _ _ _ (hd.trans hc) hq
    · rw [quantizePass_eq]
      exact quantizeStep_write _ _ _ _ _ (hw.trans hc) hq

/-- Spot check for `quantization_failures_are_per_artifact`: an engine
producing one model whose content the compression engine accepts. -/
theorem quantization_failures_are_per_artifact_spot :
    (export_step_by_step engineNine quantNine fsNine).2 = true
    ∧ (export_step_by_step engineNine quantNine fsNine).1
        = quantizePass quantNine (fun n => if n = "encoder_model.onnx" then some 11 else fsNine n)
    ∧ (∀ n ∈ models_to_quantize,
        quantizePass quantNine (fun n => if n = "encoder_model.onnx" then some 11 else fsNine n) n
          = (fun n => if n = "encoder_model.onnx" then some 11 else fsNine n) n)
    ∧ (∀ n ∈ models_to_quantize, ∀ c,
        (fun n => if n = "encoder_model.onnx" then some 11 else fsNine n) n = some c →
        quantNine c = none →
        quantizePass quantNine (fun n => if n = "encoder_model.onnx" then some 11 else fsNine n)
            (quantizedName n)
          = (fun n => if n = "encoder_model.onnx" then some 11 else fsNine n) (quantizedName n))
    ∧ (∀ n ∈ models_to_quantize, ∀ c q,
        (fun n => if n = "encoder_model.onnx" then some 11 else fsNine n) n = some c →
        quantNine c = some q →
        quantizePass quantNine (fun n => if n = "encoder_model.onnx" then some 11 else fsNine n)
            (quantizedName n) = some q) :=
  quantization_failures_are_per_artifact engineNine quantNine fsNine
    (fun n => if n = "encoder_model.onnx" then some 11 else fsNine n) rfl

/-! ## Claim C6 -/

/-- C6, counterexample to the claim as stated: the directory already
holds an artifact under the final filename
`decoder_model_quantized.onnx` (content 7); re-running the step-by-step
exporter re-quantizes the freshly exported decoder graph and writes the
result over it (content 6), so the pre-existing artifact file is not
left byte-for-byte unchanged — there is no skip-if-exists in the
exporters. -/
theorem preexisting_quantized_artifact_overwritten :
    fsPre "decoder_model_quantized.onnx" = some 7
    ∧ (export_step_by_step engineDemo quantDemo fsPre).2 = true
    ∧ (export_step_by_step engineDemo quantDemo fsPre).1 "decoder_model_quantized.onnx"
        = some 6 := by
  decide

theorem downloadStep_preserve (env : DlEnv) (fs : FSMap) (filename n : String)
    (h : (fs n).isSome = true) : downloadStep env fs filename n = fs n := by
  unfold downloadStep
  by_cases he : (fs filename).isSome = true
  · simp [he]
  · simp only [he, if_false, Bool.false_eq_true]
    cases hf : env.fetch filename with
    | none => rfl
    | some c =>
      by_cases hn : n = filename
      · subst hn
        exact absurd h he
      · simp [hn]

/-- C6 as amended: skip-if-exists holds only in the manual downloader,
for the model files it downloads: a file of the download list that is
already present is left unchanged by `download_xenova_models`.  The
exporters, by contrast, hand the whole directory to the export engine
and re-run quantization unconditionally, overwriting pre-existing
artifacts of the final filenames. -/
theorem downloader_skip_if_exists (env : DlEnv) (proceed : Bool) (fs : FSMap)
    (f : String) (hf : f ∈ xenova_files) (hex : (fs f).isSome = true) :
    download_xenova_models env proceed fs f = fs f := by
  unfold download_xenova_models
  cases proceed with
  | false => simp
  | true =>
    simp only [Bool.not_true, Bool.false_eq_true, if_false]
    have hfold : (xenova_files.foldl (downloadStep env) fs) f = fs f := by
      show (downloadStep env (downloadStep env fs "encoder_model_quantized.onnx")
        "decoder_model_quantized.onnx") f = fs f
      have h1 : (downloadStep env fs "encoder_model_quantized.onnx") f = fs f :=
        downloadStep_preserve env fs _ f hex
      have h2 : ((downloadStep env fs "encoder_model_quantized.onnx") f).isSome = true := by
        rw [h1]; exact hex
      exact (downloadStep_preserve env _ _ f h2).trans h1
    have hne : f ≠ "tokenizer.json" := by
      simp only [xenova_files, List.mem_cons, List.not_mem_nil, or_false] at hf
      rcases hf with h | h <;> subst h <;> decide
    cases ht : env.fetch "tokenizer.json" with
    | none => exact hfold
    | some c => simp [hne, hfold]

/-- Spot check for `downloader_skip_if_exists`: a directory already
holding the quantized encoder keeps it unchanged. -/
theorem downloader_skip_if_exists_spot :
    download_xenova_models dlEnvDemo true fsOneEncoder "encoder_model_quantized.onnx"
      = fsOneEncoder "encoder_model_quantized.onnx" :=
  downloader_skip_if_exists dlEnvDemo true fsOneEncoder
    "encoder_model_quantized.onnx" (by decide) (by decide)

end TranslationApp
